import Mathlib

/-!
Shallow embedding of the `birthdays-to-slack` core
(`birthday_bot/message_generator.py`, `birthday_bot/alias_manager.py`,
`birthday_bot/service.py`).

Python strings are modelled as `List Char` (`Str`).  Python `dict`s are
modelled as association lists with first-occurrence lookup, in-place
replacement on assignment to an existing key, and append on assignment to a
fresh key.  A dict record key that is absent is modelled by the field's
default value (`false` for flags read with `.get(key, False)`, `none` for
optional fields).  `datetime.utcnow()` is modelled as an abstract `UtcTime`
carrying both the epoch seconds (for `timedelta` arithmetic) and the
`isoformat()` string it renders to; `date` values are modelled by the two
strings the core extracts from them (`isoformat()` and `strftime("%B %d")`).
The OpenAI backend is an abstract fallible function `Str → Except Str Str`
from the prompt to the response text, and the LDAP directory is an abstract
predicate on the queried uid.  File persistence is the identity on the
in-memory state and is not modelled separately.
-/

namespace BirthdayBot

/-- Python strings, modelled as lists of characters. -/
abbrev Str := List Char

/-- Python's `str.strip()` whitespace test, restricted to the ASCII
whitespace characters that occur in this code base. -/
def isPySpace (c : Char) : Bool :=
  c = ' ' || c = '\t' || c = '\n' || c = '\r' || c = '\x0b' || c = '\x0c'

/-- Python `s.strip()`: drop whitespace from both ends. -/
def pyStrip (s : Str) : Str :=
  ((s.dropWhile isPySpace).reverse.dropWhile isPySpace).reverse

/-- Python `needle in haystack` on strings: substring containment. -/
def containsSub (needle : Str) : Str → Bool
  | [] => needle.isEmpty
  | c :: rest => needle.isPrefixOf (c :: rest) || containsSub needle rest

/-- Python `haystack.split(needle)[0]`: the text before the first occurrence
of `needle` (the whole string when `needle` does not occur). -/
def takeUntilSub (needle : Str) : Str → Str
  | [] => []
  | c :: rest =>
    if needle.isPrefixOf (c :: rest) && !needle.isEmpty then []
    else c :: takeUntilSub needle rest

/-- Fuel-driven worker for `replaceAll` (structural recursion on the fuel so
that concrete instances reduce definitionally). -/
def replaceAllFuel (needle repl : Str) : Nat → Str → Str
  | 0, l => l
  | _ + 1, [] => []
  | fuel + 1, c :: rest =>
    if needle.isPrefixOf (c :: rest) && !needle.isEmpty then
      repl ++ replaceAllFuel needle repl fuel ((c :: rest).drop needle.length)
    else
      c :: replaceAllFuel needle repl fuel rest

/-- Python `s.replace(needle, repl)` for a non-empty `needle`: replace
non-overlapping occurrences left to right. -/
def replaceAll (needle repl s : Str) : Str :=
  replaceAllFuel needle repl s.length s

/-- Python's single-character `s.replace(" ", ".")` as a per-character map. -/
def spaceDot (c : Char) : Char :=
  if c = ' ' then '.' else c

/-- Python `s.lower()`, per character (the code base only lowercases ASCII
names, for which `Char.toLower` agrees with Python). -/
def lowerStr (s : Str) : Str :=
  s.map Char.toLower

/-- An abstract `datetime.utcnow()` value: its epoch seconds (used for
`timedelta` comparisons) and the string its `isoformat()` renders to. -/
structure UtcTime where
  seconds : Int
  iso : Str
deriving DecidableEq

/-- An abstract `datetime.date` value: the string its `isoformat()` renders
to and the string its `strftime("%B %d")` renders to. -/
structure PyDate where
  iso : Str
  monthDay : Str
deriving DecidableEq

/-- One generated-message record (`generated_messages.json` entry).  Dict
keys that the code leaves absent are modelled by defaults: `manually_edited`
is read with `.get('manually_edited', False)`, `edited_at`, `error` and
`fallback` default to `none` / `false`. -/
structure GenMsg where
  message : Str
  historical_fact : Option Str
  generated_at : Str
  employee_name : Str
  birthday_date : Str
  regenerated : Bool
  manually_edited : Bool
  edited_at : Option Str
  error : Option Str
  fallback : Bool
deriving DecidableEq

/-- One sent-message tracking record (`sent_messages.json` entry).  The code
stores `sent_at` as an isoformat string and parses it back with
`datetime.fromisoformat`; the model keeps the `UtcTime` whole. -/
structure SentRec where
  message : Str
  sent_at : UtcTime
  employee_name : Str
  birthday_date : Str
deriving DecidableEq

/-- One prompt-history entry (`prompt_history.json` entry). -/
structure PromptEntry where
  id : Nat
  template : Str
  description : Str
  created_at : Str
  active : Bool
deriving DecidableEq

/-- The mutable state of a `MessageGenerator` instance. -/
structure GenState where
  prompt_template : Str
  prompt_history : List PromptEntry
  history : List (Str × List Str)
  generated_messages : List (Str × GenMsg)
  sent_messages : List (Str × SentRec)
deriving DecidableEq

/-- One alias record (`aliases.json` entry). -/
structure Alias where
  display_name : Str
  ldap_uid : Str
  created_at : Str
  notes : Str
deriving DecidableEq

/-- The mutable state of an `AliasManager` instance. -/
structure AliasState where
  aliases : List (Str × Alias)
deriving DecidableEq

/-- Python dict read `d.get(k)` / `d[k]`: first binding of the key. -/
def getKey (k : Str) : List (Str × α) → Option α
  | [] => none
  | (k', v) :: rest => if k' = k then some v else getKey k rest

/-- Python dict write `d[k] = v`: replace the binding in place when the key
exists, otherwise append a new binding. -/
def setKey (k : Str) (v : α) : List (Str × α) → List (Str × α)
  | [] => [(k, v)]
  | (k', v') :: rest =>
    if k' = k then (k, v) :: rest else (k', v') :: setKey k v rest

/-- Python dict delete `del d[k]`: drop the binding of the key. -/
def delKey (k : Str) : List (Str × α) → List (Str × α)
  | [] => []
  | (k', v') :: rest =>
    if k' = k then rest else (k', v') :: delKey k rest

/-- `AliasManager.name_to_ldap_uid`:
`name.strip().replace(" ", ".").lower()`. -/
def name_to_ldap_uid (name : Str) : Str :=
  lowerStr ((pyStrip name).map spaceDot)

/-- `AliasManager.get_display_name`: the alias's display name when one is
registered, otherwise the calendar name itself.  (The `isinstance(_, str)`
guard in the source is the well-typedness of `Alias.display_name`.) -/
def get_display_name (st : AliasState) (calendar_name : Str) : Str :=
  match getKey calendar_name st.aliases with
  | some a => a.display_name
  | none => calendar_name

/-- `AliasManager.get_ldap_uid`: the alias's stored ldap uid when one is
registered, otherwise `name_to_ldap_uid calendar_name`. -/
def get_ldap_uid (st : AliasState) (calendar_name : Str) : Str :=
  match getKey calendar_name st.aliases with
  | some a => a.ldap_uid
  | none => name_to_ldap_uid calendar_name

/-- `AliasManager.add_alias`: fails when the calendar name is already
registered; otherwise stores a record whose `created_at` is
`datetime.utcnow().isoformat() + "Z"`. -/
def add_alias (now : UtcTime) (st : AliasState)
    (calendar_name display_name notes : Str) : Except Str (Alias × AliasState) :=
  if (getKey calendar_name st.aliases).isSome then
    Except.error ("Alias already exists for calendar_name".toList)
  else
    let a : Alias :=
      { display_name := display_name
        ldap_uid := name_to_ldap_uid display_name
        created_at := now.iso ++ ['Z']
        notes := notes }
    Except.ok (a, ⟨setKey calendar_name a st.aliases⟩)

/-- `MessageGenerator` message key: `f"{employee_name}_{birthday_date.isoformat()}"`. -/
def message_key (employee_name : Str) (birthday_date : PyDate) : Str :=
  employee_name ++ ['_'] ++ birthday_date.iso

/-- `MessageGenerator` sent-tracking key:
`f"{employee_name}_{birthday_date.isoformat()}_sent"`. -/
def sent_key (employee_name : Str) (birthday_date : PyDate) : Str :=
  employee_name ++ ['_'] ++ birthday_date.iso ++ "_sent".toList

/-- `MessageGenerator._extract_historical_fact`: when `"and also"` occurs in
the lowercased message, take the original text before its first occurrence,
strip it, delete the two boilerplate phrases, and strip again; otherwise
`None`. -/
def extract_historical_fact (message : Str) : Option Str :=
  if containsSub "and also".toList (lowerStr message) then
    let fact := pyStrip (takeUntilSub "and also".toList message)
    let fact := pyStrip (replaceAll "On this day in history,".toList [] fact)
    let fact := pyStrip (replaceAll "On this day,".toList [] fact)
    some fact
  else
    none

/-- The numbered exclusion lines `f"{i}. {fact}\n"` built from previous
facts, starting at index 1. -/
def exclusionLines : Nat → List Str → Str
  | _, [] => []
  | i, f :: rest =>
    Nat.toDigits 10 i ++ ". ".toList ++ f ++ ['\n'] ++ exclusionLines (i + 1) rest

/-- The full exclusion block appended to the prompt when the employee has
previous facts. -/
def exclusionBlock (previous_facts : List Str) : Str :=
  "\n\nDO NOT use these historical facts that were used in previous years:\n".toList
    ++ exclusionLines 1 previous_facts
    ++ "\nInstead, find a different positive historical fact from that date.".toList

/-- The prompt built by `MessageGenerator.generate_message`:
`self.prompt_template.format(employee_name=..., birthday_date=...)` (the
placeholder substitution of `str.format`), plus the exclusion block when the
employee already has facts in the history. -/
def build_prompt (st : GenState) (employee_name : Str) (birthday_date : PyDate) : Str :=
  let base :=
    replaceAll "{birthday_date}".toList birthday_date.monthDay
      (replaceAll "{employee_name}".toList employee_name st.prompt_template)
  let previous_facts := (getKey employee_name st.history).getD []
  if previous_facts.isEmpty then base else base ++ exclusionBlock previous_facts

/-- The hard-coded fallback message
`f"ğŸ‰ *Happy Birthday {employee_name}!* ğŸ‚ Wishing you a fantastic day filled with joy and celebration!"`
(the literal characters of the source file). -/
def fallback_message (employee_name : Str) : Str :=
  "ğŸ‰ *Happy Birthday ".toList ++ employee_name
    ++ "!* ğŸ‚ Wishing you a fantastic day filled with joy and celebration!".toList

/-- The result of one `generate_message` call: the returned record, the
post-call state, and whether the OpenAI backend was invoked. -/
structure GenRun where
  result : GenMsg
  state : GenState
  invoked : Bool
deriving DecidableEq

/-- `MessageGenerator.generate_message`.  `backend` is the abstract OpenAI
call (prompt to response text, fallible); `now` is `datetime.utcnow()`.
When `regenerate` is false and the key is cached, the cached record is
returned unchanged (both the manually-edited and the plain-cache branch of
the source return `existing_msg` as is).  Otherwise the backend is invoked;
on success the result is stored and the fact history updated, on failure a
fallback record is returned. -/
def generate_message (backend : Str → Except Str Str) (now : UtcTime)
    (st : GenState) (employee_name : Str) (birthday_date : PyDate)
    (regenerate : Bool) : GenRun :=
  let key := message_key employee_name birthday_date
  match (if regenerate then none else getKey key st.generated_messages) with
  | some existing_msg => ⟨existing_msg, st, false⟩
  | none =>
    let prompt := build_prompt st employee_name birthday_date
    match backend prompt with
    | Except.ok message =>
      let fact := extract_historical_fact message
      let result : GenMsg :=
        { message := message
          historical_fact := fact
          generated_at := now.iso
          employee_name := employee_name
          birthday_date := birthday_date.iso
          regenerated := regenerate
          manually_edited := false
          edited_at := none
          error := none
          fallback := false }
      let msgs := setKey key result st.generated_messages
      let newFacts :=
        match fact, getKey employee_name st.history with
        | some f, some l => if f ∈ l then l else l ++ [f]
        | some f, none => [f]
        | none, _ => []
      let hist := setKey employee_name newFacts st.history
      ⟨result, { st with generated_messages := msgs, history := hist }, true⟩
    | Except.error e =>
      let result : GenMsg :=
        { message := fallback_message employee_name
          historical_fact := none
          generated_at := now.iso
          employee_name := employee_name
          birthday_date := birthday_date.iso
          regenerated := false
          manually_edited := false
          edited_at := none
          error := some e
          fallback := true }
      ⟨result, st, true⟩

/-- `MessageGenerator.update_message`: false (state unchanged) when no
record exists for the key; otherwise overwrite the message text, set the
manual-edit flag and the edit timestamp. -/
def update_message (now : UtcTime) (st : GenState) (employee_name : Str)
    (birthday_date : PyDate) (new_message : Str) : Bool × GenState :=
  let key := message_key employee_name birthday_date
  match getKey key st.generated_messages with
  | none => (false, st)
  | some m =>
    let m' :=
      { m with
        message := new_message
        manually_edited := true
        edited_at := some now.iso }
    (true, { st with generated_messages := setKey key m' st.generated_messages })

/-- `MessageGenerator.delete_generated_message`. -/
def delete_generated_message (st : GenState) (employee_name : Str)
    (birthday_date : PyDate) : GenState :=
  { st with
    generated_messages := delKey (message_key employee_name birthday_date) st.generated_messages }

/-- `MessageGenerator.mark_message_sent`: store a sent record whose
`sent_at` is `datetime.utcnow().isoformat()`. -/
def mark_message_sent (now : UtcTime) (st : GenState) (employee_name : Str)
    (birthday_date : PyDate) (message : Str) : GenState :=
  { st with
    sent_messages :=
      setKey (sent_key employee_name birthday_date)
        { message := message
          sent_at := now
          employee_name := employee_name
          birthday_date := birthday_date.iso }
        st.sent_messages }

/-- `MessageGenerator.was_message_sent_today`: true iff a sent record exists
for the key and `utcnow() - sent_at < timedelta(hours=24)` (strict). -/
def was_message_sent_today (now : UtcTime) (st : GenState) (employee_name : Str)
    (birthday_date : PyDate) : Bool :=
  match getKey (sent_key employee_name birthday_date) st.sent_messages with
  | some r => decide (now.seconds - r.sent_at.seconds < 24 * 3600)
  | none => false

/-- `MessageGenerator.clear_sent_tracking`. -/
def clear_sent_tracking (st : GenState) (employee_name : Str)
    (birthday_date : PyDate) : GenState :=
  { st with sent_messages := delKey (sent_key employee_name birthday_date) st.sent_messages }

/-- `MessageGenerator._save_prompt_template`: when the new template differs
from the current one, append the current one to the history (next integer
id, `description or "Previous version"`, `utcnow().isoformat()` timestamp)
before overwriting the current template. -/
def save_prompt_template (now : UtcTime) (st : GenState)
    (template description : Str) : GenState :=
  let st' :=
    if st.prompt_template ≠ template then
      { st with
        prompt_history :=
          st.prompt_history ++
            [{ id := st.prompt_history.length + 1
               template := st.prompt_template
               description := if description.isEmpty then "Previous version".toList else description
               created_at := now.iso
               active := false }] }
    else st
  { st' with prompt_template := template }

/-- The `ValueError` text raised by `update_prompt_template`. -/
def template_error_text : Str :=
  "Template must contain {employee_name} and {birthday_date} placeholders".toList

/-- `MessageGenerator.update_prompt_template`: raise `ValueError` when either
placeholder is absent from the new template, otherwise save it. -/
def update_prompt_template (now : UtcTime) (st : GenState)
    (new_template description : Str) : Except Str GenState :=
  if !containsSub "{employee_name}".toList new_template
      || !containsSub "{birthday_date}".toList new_template then
    Except.error template_error_text
  else
    Except.ok (save_prompt_template now st new_template description)

/-- The state of the `MessageGenerator` object after a call that may raise:
on a raise the object is left as it was. -/
def postUpdateState (st : GenState) : Except Str GenState → GenState
  | Except.ok st' => st'
  | Except.error _ => st

/-- The templates visible through `get_prompt_history`: the current template
(synthetic first entry) followed by the stored history's templates. -/
def prompt_history_templates (st : GenState) : List Str :=
  st.prompt_template :: st.prompt_history.map PromptEntry.template

/-- One parsed `VEVENT` of the calendar feed: the date part of its
`dtstart` and its `summary` text. -/
structure VEvent where
  dtstart : PyDate
  summary : Str
deriving DecidableEq

/-- One event record emitted by
`BirthdayService.get_birthday_events_for_date`. -/
structure BEvent where
  name : Str
  summary : Str
  date : Str
  ldap_valid : Bool
  will_send : Bool
  message : Option Str
  message_data : Option GenMsg
deriving DecidableEq

/-- The uid string that `BirthdayService.verify_person_in_ldap` queries the
directory with: `full_name.replace(' ', '.').lower()`. -/
def queried_uid (full_name : Str) : Str :=
  lowerStr (full_name.map spaceDot)

/-- `BirthdayService.verify_person_in_ldap`: search the directory for
`(uid=...)` built by `queried_uid`.  `dir` abstracts the LDAP search
(nonempty result set); any transport failure returns false and is folded
into `dir` answering false (fail-closed). -/
def verify_person_in_ldap (dir : Str → Bool) (full_name : Str) : Bool :=
  dir (queried_uid full_name)

/-- The simple message `f":birthday: Happy Birthday {full_name}! :tada:"`
used when no generated message is available. -/
def simple_birthday_message (full_name : Str) : Str :=
  ":birthday: Happy Birthday ".toList ++ full_name ++ "! :tada:".toList

/-- The body of the `VEVENT` loop of
`BirthdayService.get_birthday_events_for_date` for one calendar component:
`none` when the event's start date differs from the target or its summary
has no hyphen; otherwise the assembled event record plus the
message-generator state after the optional `generate_message` call. -/
def assemble_event (dir : Str → Bool) (backend : Str → Except Str Str)
    (now : UtcTime) (target : PyDate) (gen : Option GenState) (ev : VEvent) :
    Option BEvent × Option GenState :=
  if ev.dtstart = target && containsSub ['-'] ev.summary then
    let full_name := pyStrip (takeUntilSub ['-'] ev.summary)
    let ldap_valid := verify_person_in_ldap dir full_name
    let mdGen : Option GenMsg × Option GenState :=
      match gen with
      | some g =>
        if ldap_valid then
          let run := generate_message backend now g full_name target false
          (some run.result, some run.state)
        else (none, some g)
      | none => (none, none)
    let message_data := mdGen.1
    let message : Option Str :=
      match message_data with
      | some md =>
        if md.error = none then some md.message
        else if ldap_valid then some (simple_birthday_message full_name) else none
      | none => if ldap_valid then some (simple_birthday_message full_name) else none
    (some
      { name := full_name
        summary := ev.summary
        date := target.iso
        ldap_valid := ldap_valid
        will_send := ldap_valid
        message := message
        message_data := message_data },
      mdGen.2)
  else
    (none, gen)

/-- `BirthdayService.get_birthday_events_for_date`: walk the calendar
components in order, assembling an event for each matching `VEVENT` and
threading the message-generator state. -/
def get_birthday_events_for_date (dir : Str → Bool)
    (backend : Str → Except Str Str) (now : UtcTime) (target : PyDate)
    (gen : Option GenState) : List VEvent → List BEvent × Option GenState
  | [] => ([], gen)
  | ev :: rest =>
    let step := assemble_event dir backend now target gen ev
    let tail := get_birthday_events_for_date dir backend now target step.2 rest
    match step.1 with
    | some e => (e :: tail.1, tail.2)
    | none => tail

/-- The fallback record returned on a backend error. -/
def fallbackRecord (now : UtcTime) (employee_name : Str) (birthday_date : PyDate)
    (e : Str) : GenMsg :=
  { message := fallback_message employee_name
    historical_fact := none
    generated_at := now.iso
    employee_name := employee_name
    birthday_date := birthday_date.iso
    regenerated := false
    manually_edited := false
    edited_at := none
    error := some e
    fallback := true }

/-! ## Concrete sample values used by witnesses and counterexamples -/

/-- A sample `datetime.utcnow()` value (a naive isoformat string, as the
Python library renders: no timezone suffix). -/
def now0 : UtcTime := ⟨0, "2024-03-15T07:00:00".toList⟩

/-- A later sample `datetime.utcnow()` value. -/
def now1 : UtcTime := ⟨5, "2024-03-15T07:00:05".toList⟩

/-- A sample birthday date. -/
def date0 : PyDate := ⟨"2024-03-15".toList, "March 15".toList⟩

/-- A sample employee name. -/
def johnDoe : Str := "John Doe".toList

/-- A fresh `MessageGenerator` state with an empty prompt template and no
stored data. -/
def emptyGenState : GenState := ⟨[], [], [], [], []⟩

/-- A backend that always fails, as in the source's API-error test. -/
def errBackend : Str → Except Str Str := fun _ => Except.error "API Error".toList

/-- A backend that succeeds with a message containing the `"and also"`
marker, so a historical fact is extracted. -/
def okBackend : Str → Except Str Str :=
  fun _ => Except.ok
    "On this day in 1969, the Moon landing occurred, and also John was born. Happy Birthday!".toList

/-- A backend that succeeds with a message lacking the `"and also"` marker,
so no historical fact is extracted. -/
def noFactBackend : Str → Except Str Str :=
  fun _ => Except.ok "Wishing you a wonderful day, Happy Birthday!".toList

/-- A sample stored (previously generated) message record. -/
def sampleMsg : GenMsg :=
  { message := "Enjoy the day!".toList
    historical_fact := none
    generated_at := "2024-03-01T00:00:00".toList
    employee_name := johnDoe
    birthday_date := date0.iso
    regenerated := false
    manually_edited := false
    edited_at := none
    error := none
    fallback := false }

/-- A generator state holding one stored message for John Doe. -/
def storedState : GenState :=
  { emptyGenState with generated_messages := [(message_key johnDoe date0, sampleMsg)] }

/-- A generator state holding one manually edited message for John Doe. -/
def editedState : GenState :=
  { emptyGenState with
    generated_messages :=
      [(message_key johnDoe date0, { sampleMsg with manually_edited := true, edited_at := some "2024-03-02T00:00:00".toList })] }

/-- A generator state holding one previously used historical fact for
John Doe. -/
def factState : GenState :=
  { emptyGenState with history := [(johnDoe, ["In 1889 the Eiffel Tower opened".toList])] }

/-- A generator state holding one sent record for John Doe at `now0`. -/
def sentState : GenState :=
  { emptyGenState with
    sent_messages :=
      [(sent_key johnDoe date0,
        { message := "Enjoy the day!".toList
          sent_at := now0
          employee_name := johnDoe
          birthday_date := date0.iso })] }

/-- An alias table registering calendar name "JDoe" with display name
"John Doe" and stored ldap uid "john.doe". -/
def aliasSt0 : AliasState :=
  ⟨[("JDoe".toList,
     { display_name := "John Doe".toList
       ldap_uid := "john.doe".toList
       created_at := "2024-01-01T00:00:00Z".toList
       notes := [] })]⟩

/-- A one-event calendar whose summary names the aliased "JDoe". -/
def cal0 : List VEvent := [⟨date0, "JDoe - Birthday".toList⟩]

/-- The event the pipeline emits for `cal0` with an all-accepting directory
and no message generator. -/
def jdoeEvent : BEvent :=
  { name := "JDoe".toList
    summary := "JDoe - Birthday".toList
    date := date0.iso
    ldap_valid := true
    will_send := true
    message := some (simple_birthday_message "JDoe".toList)
    message_data := none }

/-! ## Association-list (Python dict) characterizations -/

theorem getKey_setKey_self (k : Str) (v : α) (l : List (Str × α)) :
    getKey k (setKey k v l) = some v := by
  induction l with
  | nil => simp [getKey, setKey]
  | cons hd tl ih =>
    by_cases h : hd.1 = k
    · simp [getKey, setKey, h]
    · simp [getKey, setKey, h, ih]

theorem getKey_setKey_ne (k k' : Str) (v : α) (l : List (Str × α))
    (h : k' ≠ k) : getKey k' (setKey k v l) = getKey k' l := by
  have hne : k ≠ k' := fun he => h he.symm
  induction l with
  | nil => simp [getKey, setKey, hne]
  | cons hd tl ih =>
    by_cases hh : hd.1 = k
    · subst hh
      simp [getKey, setKey, hne, h]
    · simp only [setKey, if_neg hh, getKey]
      by_cases hk' : hd.1 = k'
      · simp [hk']
      · simp [hk', ih]

theorem getKey_eq_none_of_not_mem (k : Str) (l : List (Str × α))
    (h : k ∉ l.map Prod.fst) : getKey k l = none := by
  induction l with
  | nil => rfl
  | cons hd tl ih =>
    simp only [List.map_cons, List.mem_cons, not_or] at h
    have hne : hd.1 ≠ k := fun he => h.1 he.symm
    simp only [getKey, if_neg hne]
    exact ih h.2

theorem getKey_delKey_self (k : Str) (l : List (Str × α))
    (h : (l.map Prod.fst).Nodup) : getKey k (delKey k l) = none := by
  induction l with
  | nil => rfl
  | cons hd tl ih =>
    simp only [List.map_cons, List.nodup_cons] at h
    by_cases hh : hd.1 = k
    · subst hh
      simp only [delKey, if_pos rfl]
      exact getKey_eq_none_of_not_mem _ _ h.1
    · simp only [delKey, if_neg hh, getKey, if_neg hh]
      exact ih h.2

/-! ## Substring containment -/

theorem containsSub_iff (n l : Str) : containsSub n l = true ↔ n <:+: l := by
  induction l with
  | nil => simp [containsSub, List.isEmpty_iff]
  | cons c rest ih =>
    simp [containsSub, List.isPrefixOf_iff_prefix, ih, List.infix_cons_iff]

theorem containsSub_of_middle (n a b : Str) : containsSub n (a ++ n ++ b) = true := by
  rw [containsSub_iff]
  exact ⟨a, b, rfl⟩

theorem containsSub_of_infix_prefix (n p rest : Str)
    (h : containsSub n p = true) : containsSub n (p ++ rest) = true := by
  rw [containsSub_iff] at h ⊢
  exact h.trans ⟨[], rest, by simp⟩

/-! ## Characters: Python's `.lower()` commutes with the space-to-dot map -/

theorem toNat_ofNat_valid (n : Nat) (h : n.isValidChar) :
    (Char.ofNat n).toNat = n := by
  simp [Char.ofNat, h, Char.ofNatAux, Char.toNat, UInt32.toNat, UInt32.ofNat']

theorem toLower_ne_space (c : Char) (h : c ≠ ' ') : Char.toLower c ≠ ' ' := by
  unfold Char.toLower
  simp only []
  split
  · rename_i hrange
    intro hcontra
    have hvalid : (c.toNat + 32).isValidChar := by
      left
      have := hrange.2
      omega
    have hval := toNat_ofNat_valid (c.toNat + 32) hvalid
    rw [hcontra] at hval
    have hsp : (' ').toNat = 32 := by decide
    rw [hsp] at hval
    have := hrange.1
    omega
  · exact h

theorem toLower_spaceDot (c : Char) :
    Char.toLower (spaceDot c) = spaceDot (Char.toLower c) := by
  by_cases hc : c = ' '
  · subst hc
    decide
  · rw [spaceDot, if_neg hc, spaceDot, if_neg (toLower_ne_space c hc)]

/-! ## `generate_message` branch characterizations -/

theorem generate_message_cached (backend : Str → Except Str Str)
    (now : UtcTime) (st : GenState) (n : Str) (d : PyDate) (m : GenMsg)
    (h : getKey (message_key n d) st.generated_messages = some m) :
    generate_message backend now st n d false = ⟨m, st, false⟩ := by
  unfold generate_message
  simp [h]

theorem generate_message_error (backend : Str → Except Str Str)
    (now : UtcTime) (st : GenState) (n : Str) (d : PyDate) (regen : Bool)
    (e : Str)
    (hl : getKey (message_key n d) st.generated_messages = none ∨ regen = true)
    (he : backend (build_prompt st n d) = Except.error e) :
    generate_message backend now st n d regen =
      ⟨fallbackRecord now n d e, st, true⟩ := by
  unfold generate_message
  cases regen with
  | true => simp [he, fallbackRecord]
  | false =>
    rcases hl with hl | hl
    · simp [hl, he, fallbackRecord]
    · exact absurd hl (by simp)

theorem generate_message_ok_stores (backend : Str → Except Str Str)
    (now : UtcTime) (st : GenState) (n : Str) (d : PyDate) (regen : Bool)
    (msg : Str)
    (hl : getKey (message_key n d) st.generated_messages = none ∨ regen = true)
    (hb : backend (build_prompt st n d) = Except.ok msg) :
    getKey (message_key n d)
        (generate_message backend now st n d regen).state.generated_messages =
      some (generate_message backend now st n d regen).result ∧
    (generate_message backend now st n d regen).invoked = true ∧
    (generate_message backend now st n d regen).result =
      { message := msg
        historical_fact := extract_historical_fact msg
        generated_at := now.iso
        employee_name := n
        birthday_date := d.iso
        regenerated := regen
        manually_edited := false
        edited_at := none
        error := none
        fallback := false } := by
  have hrun : generate_message backend now st n d regen =
      ⟨{ message := msg
         historical_fact := extract_historical_fact msg
         generated_at := now.iso
         employee_name := n
         birthday_date := d.iso
         regenerated := regen
         manually_edited := false
         edited_at := none
         error := none
         fallback := false },
       { st with
         generated_messages :=
           setKey (message_key n d)
             { message := msg
               historical_fact := extract_historical_fact msg
               generated_at := now.iso
               employee_name := n
               birthday_date := d.iso
               regenerated := regen
               manually_edited := false
               edited_at := none
               error := none
               fallback := false } st.generated_messages
         history :=
           setKey n
             (match extract_historical_fact msg, getKey n st.history with
              | some f, some l => if f ∈ l then l else l ++ [f]
              | some f, none => [f]
              | none, _ => []) st.history },
       true⟩ := by
    unfold generate_message
    cases regen with
    | true => simp [hb]
    | false =>
      rcases hl with hl | hl
      · simp [hl, hb]
      · exact absurd hl (by simp)
  rw [hrun]
  exact ⟨getKey_setKey_self .., rfl, rfl⟩

/-- Shape of one loop iteration of the event pipeline: either the component
is skipped, or the emitted event's name is the raw extracted name and its
validity bit is the directory's answer on the uid derived from that raw
name. -/
theorem assemble_event_shape (dir : Str → Bool) (backend : Str → Except Str Str)
    (now : UtcTime) (target : PyDate) (gen : Option GenState) (ev : VEvent) :
    (assemble_event dir backend now target gen ev).1 = none ∨
    ∃ e, (assemble_event dir backend now target gen ev).1 = some e ∧
      ev.dtstart = target ∧ containsSub ['-'] ev.summary = true ∧
      e.name = pyStrip (takeUntilSub ['-'] ev.summary) ∧
      e.ldap_valid = dir (queried_uid e.name) := by
  unfold assemble_event
  by_cases hc : (decide (ev.dtstart = target) && containsSub ['-'] ev.summary) = true
  · right
    rw [if_pos hc]
    simp only [Bool.and_eq_true, decide_eq_true_eq] at hc
    exact ⟨_, rfl, hc.1, hc.2, rfl, rfl⟩
  · left
    rw [if_neg hc]

/-! ## Claim theorems -/

/-- C7: for every raw name with no registered alias, `resolve_identifier`
(`get_ldap_uid`) equals the pure transform: trim whitespace, lowercase, and
replace each internal space with a dot. -/
theorem derived_uid_matches_trim_lower_dot (st : AliasState) (n : Str)
    (h : getKey n st.aliases = none) :
    get_ldap_uid st n = (lowerStr (pyStrip n)).map spaceDot := by
  unfold get_ldap_uid
  rw [h]
  show name_to_ldap_uid n = _
  unfold name_to_ldap_uid lowerStr
  rw [List.map_map, List.map_map]
  exact List.map_congr_left (fun c _ => toLower_spaceDot c)

/-- Witness for C7 at the raw name `"  John Doe "` with an empty alias
table. -/
theorem derived_uid_matches_trim_lower_dot_witness :
    getKey "  John Doe ".toList (AliasState.mk []).aliases = none ∧
    get_ldap_uid (AliasState.mk []) "  John Doe ".toList =
      (lowerStr (pyStrip "  John Doe ".toList)).map spaceDot :=
  ⟨by decide, derived_uid_matches_trim_lower_dot (AliasState.mk []) "  John Doe ".toList (by decide)⟩

/-- C8: a prompt update whose template misses either placeholder raises
`ValueError` before any mutation: the current template and the history are
left exactly as they were, and the rejected text (assuming it was not
already present) appears nowhere in the history sequence. -/
theorem prompt_update_rejects_missing_placeholder (now : UtcTime)
    (st : GenState) (t desc : Str)
    (h : containsSub "{employee_name}".toList t = false ∨
         containsSub "{birthday_date}".toList t = false)
    (hnot : t ∉ prompt_history_templates st) :
    update_prompt_template now st t desc = Except.error template_error_text ∧
    postUpdateState st (update_prompt_template now st t desc) = st ∧
    t ∉ prompt_history_templates (postUpdateState st (update_prompt_template now st t desc)) := by
  have hcond : (!containsSub "{employee_name}".toList t
      || !containsSub "{birthday_date}".toList t) = true := by
    rcases h with h | h
    · rw [h]
      rfl
    · rw [h]
      simp
  have herr : update_prompt_template now st t desc = Except.error template_error_text := by
    unfold update_prompt_template
    rw [if_pos hcond]
  refine ⟨herr, ?_, ?_⟩
  · rw [herr]
    rfl
  · rw [herr]
    exact hnot

/-- Witness for C8 at the placeholder-free template `"hello"` on the fresh
state. -/
theorem prompt_update_rejects_missing_placeholder_witness :
    (containsSub "{employee_name}".toList "hello".toList = false ∨
      containsSub "{birthday_date}".toList "hello".toList = false) ∧
    "hello".toList ∉ prompt_history_templates emptyGenState ∧
    (update_prompt_template now0 emptyGenState "hello".toList [] =
        Except.error template_error_text ∧
      postUpdateState emptyGenState (update_prompt_template now0 emptyGenState "hello".toList []) =
        emptyGenState ∧
      "hello".toList ∉ prompt_history_templates
        (postUpdateState emptyGenState (update_prompt_template now0 emptyGenState "hello".toList []))) :=
  ⟨Or.inl (by decide), by decide,
    prompt_update_rejects_missing_placeholder now0 emptyGenState "hello".toList []
      (Or.inl (by decide)) (by decide)⟩

/-- C9: `was_sent_today` is true iff a sent record exists for the key whose
timestamp is strictly within 24 hours of now; it is true immediately after
`mark_sent` and false after `clear_sent` (on a well-formed, duplicate-free
sent table, the Python dict invariant). -/
theorem sent_window_characterization :
    (∀ (now : UtcTime) (st : GenState) (n : Str) (d : PyDate),
      was_message_sent_today now st n d = true ↔
        ∃ r, getKey (sent_key n d) st.sent_messages = some r ∧
          now.seconds - r.sent_at.seconds < 24 * 3600) ∧
    (∀ (now : UtcTime) (st : GenState) (n : Str) (d : PyDate) (msg : Str),
      was_message_sent_today now (mark_message_sent now st n d msg) n d = true) ∧
    (∀ (now : UtcTime) (st : GenState) (n : Str) (d : PyDate),
      (st.sent_messages.map Prod.fst).Nodup →
        was_message_sent_today now (clear_sent_tracking st n d) n d = false) := by
  refine ⟨?_, ?_, ?_⟩
  · intro now st n d
    unfold was_message_sent_today
    cases hg : getKey (sent_key n d) st.sent_messages with
    | none => simp [hg]
    | some r => simp [hg]
  · intro now st n d msg
    unfold was_message_sent_today mark_message_sent
    simp only [getKey_setKey_self]
    simp
  · intro now st n d hnd
    unfold was_message_sent_today clear_sent_tracking
    simp only [getKey_delKey_self _ _ hnd]

/-- Witness for C9's clear-sent conjunct (and mark-sent conjunct) at a
concrete one-record sent table. -/
theorem sent_window_characterization_witness :
    (sentState.sent_messages.map Prod.fst).Nodup ∧
    was_message_sent_today now1 (clear_sent_tracking sentState johnDoe date0) johnDoe date0 = false ∧
    was_message_sent_today now0 (mark_message_sent now0 emptyGenState johnDoe date0 "hi".toList) johnDoe date0 = true :=
  ⟨by decide,
    sent_window_characterization.2.2 now1 sentState johnDoe date0 (by decide),
    sent_window_characterization.2.1 now0 emptyGenState johnDoe date0 "hi".toList⟩

/-- C4: `update` followed by `get_or_create(regenerate=False)` returns the
manually-edited text unchanged, with the manual-edit flag set and the state
untouched; more generally a `regenerate=False` call on any cached key
returns the stored record and changes nothing. -/
theorem manual_edit_wins_over_cache :
    (∀ (backend : Str → Except Str Str) (now now' : UtcTime) (st : GenState)
        (n : Str) (d : PyDate) (m : GenMsg) (text : Str),
      getKey (message_key n d) st.generated_messages = some m →
        (update_message now st n d text).1 = true ∧
        generate_message backend now' (update_message now st n d text).2 n d false =
          ⟨{ m with message := text, manually_edited := true, edited_at := some now.iso },
            (update_message now st n d text).2, false⟩) ∧
    (∀ (backend : Str → Except Str Str) (now : UtcTime) (st : GenState)
        (n : Str) (d : PyDate) (m : GenMsg),
      getKey (message_key n d) st.generated_messages = some m →
        generate_message backend now st n d false = ⟨m, st, false⟩) := by
  constructor
  · intro backend now now' st n d m text h
    have hupd : update_message now st n d text =
        (true,
          { st with
            generated_messages :=
              setKey (message_key n d)
                { m with message := text, manually_edited := true, edited_at := some now.iso }
                st.generated_messages }) := by
      simp only [update_message, h]
    rw [hupd]
    exact ⟨rfl, generate_message_cached backend now' _ n d _ (getKey_setKey_self ..)⟩
  · intro backend now st n d m h
    exact generate_message_cached backend now st n d m h

/-- Witness for C4 at a concrete stored record. -/
theorem manual_edit_wins_over_cache_witness :
    getKey (message_key johnDoe date0) storedState.generated_messages = some sampleMsg ∧
    ((update_message now0 storedState johnDoe date0 "Custom text".toList).1 = true ∧
      generate_message errBackend now1
          (update_message now0 storedState johnDoe date0 "Custom text".toList).2 johnDoe date0 false =
        ⟨{ sampleMsg with
            message := "Custom text".toList
            manually_edited := true
            edited_at := some now0.iso },
          (update_message now0 storedState johnDoe date0 "Custom text".toList).2, false⟩) :=
  ⟨by decide,
    manual_edit_wins_over_cache.1 errBackend now0 now1 storedState johnDoe date0 sampleMsg
      "Custom text".toList (by decide)⟩

/-- C10: on a key whose stored entry is manually edited, a successful
`regenerate=True` call replaces the entry with a freshly generated record
carrying no manual-edit flag and no edit timestamp. -/
theorem regenerate_erases_manual_edit (backend : Str → Except Str Str)
    (now : UtcTime) (st : GenState) (n : Str) (d : PyDate) (m : GenMsg) (msg : Str)
    (_hm : getKey (message_key n d) st.generated_messages = some m)
    (_hme : m.manually_edited = true)
    (hb : backend (build_prompt st n d) = Except.ok msg) :
    getKey (message_key n d)
        (generate_message backend now st n d true).state.generated_messages =
      some (generate_message backend now st n d true).result ∧
    (generate_message backend now st n d true).result.manually_edited = false ∧
    (generate_message backend now st n d true).result.edited_at = none := by
  obtain ⟨h1, _, h3⟩ := generate_message_ok_stores backend now st n d true msg (Or.inr rfl) hb
  exact ⟨h1, by rw [h3], by rw [h3]⟩

/-- Witness for C10 at a concrete manually edited record with a succeeding
backend. -/
theorem regenerate_erases_manual_edit_witness :
    getKey (message_key johnDoe date0) editedState.generated_messages =
      some { sampleMsg with
              manually_edited := true
              edited_at := some "2024-03-02T00:00:00".toList } ∧
    (getKey (message_key johnDoe date0)
        (generate_message noFactBackend now0 editedState johnDoe date0 true).state.generated_messages =
      some (generate_message noFactBackend now0 editedState johnDoe date0 true).result ∧
    (generate_message noFactBackend now0 editedState johnDoe date0 true).result.manually_edited = false ∧
    (generate_message noFactBackend now0 editedState johnDoe date0 true).result.edited_at = none) :=
  ⟨by decide,
    regenerate_erases_manual_edit noFactBackend now0 editedState johnDoe date0
      { sampleMsg with
        manually_edited := true
        edited_at := some "2024-03-02T00:00:00".toList }
      "Wishing you a wonderful day, Happy Birthday!".toList
      (by decide) (by decide) rfl⟩

/-- Counterexample to C2 as stated: with a failing backend on an empty
store, the returned record is a fallback but nothing is stored for the key
— the claim's "also stores" conjunct is false. -/
theorem fallback_not_stored_cex :
    (generate_message errBackend now0 emptyGenState johnDoe date0 false).result.fallback = true ∧
    getKey (message_key johnDoe date0)
      (generate_message errBackend now0 emptyGenState johnDoe date0 false).state.generated_messages =
      none := by
  decide

/-- C2 (amended): on a backend error the call returns — but does not store —
a fallback record flagged `fallback=true`, carrying the error text, whose
message contains the person's canonical name and the fixed phrase
"Happy Birthday"; the whole state is left unchanged. -/
theorem fallback_returned_not_stored (backend : Str → Except Str Str)
    (now : UtcTime) (st : GenState) (n : Str) (d : PyDate) (regen : Bool) (e : Str)
    (hl : getKey (message_key n d) st.generated_messages = none ∨ regen = true)
    (he : backend (build_prompt st n d) = Except.error e) :
    (generate_message backend now st n d regen).result.fallback = true ∧
    (generate_message backend now st n d regen).result.error = some e ∧
    containsSub n (generate_message backend now st n d regen).result.message = true ∧
    containsSub "Happy Birthday".toList
      (generate_message backend now st n d regen).result.message = true ∧
    (generate_message backend now st n d regen).state = st := by
  rw [generate_message_error backend now st n d regen e hl he]
  refine ⟨rfl, rfl, ?_, ?_, rfl⟩
  · exact containsSub_of_middle n _ _
  · show containsSub "Happy Birthday".toList (fallback_message n) = true
    unfold fallback_message
    rw [containsSub_iff, List.append_assoc]
    have h1 : "Happy Birthday".toList <:+: "ğŸ‰ *Happy Birthday ".toList := by
      rw [← containsSub_iff]
      decide
    exact h1.trans (List.prefix_append _ _).isInfix

/-- Witness for C2 (amended) at the failing backend on the empty store. -/
theorem fallback_returned_not_stored_witness :
    (getKey (message_key johnDoe date0) emptyGenState.generated_messages = none ∨ False) ∧
    ((generate_message errBackend now0 emptyGenState johnDoe date0 false).result.fallback = true ∧
      (generate_message errBackend now0 emptyGenState johnDoe date0 false).result.error =
        some "API Error".toList ∧
      containsSub johnDoe
        (generate_message errBackend now0 emptyGenState johnDoe date0 false).result.message = true ∧
      containsSub "Happy Birthday".toList
        (generate_message errBackend now0 emptyGenState johnDoe date0 false).result.message = true ∧
      (generate_message errBackend now0 emptyGenState johnDoe date0 false).state = emptyGenState) :=
  ⟨Or.inl (by decide),
    fallback_returned_not_stored errBackend now0 emptyGenState johnDoe date0 false
      "API Error".toList (Or.inl (by decide)) rfl⟩

/-- Counterexample to C3 as stated: with a failing backend both
`regenerate=False` calls invoke the backend, and the two returned records
differ (their generation timestamps are the two calls' clocks) — both
conjuncts of the claim fail. -/
theorem repeat_get_or_create_cex :
    (generate_message errBackend now0 emptyGenState johnDoe date0 false).invoked = true ∧
    (generate_message errBackend now1
        (generate_message errBackend now0 emptyGenState johnDoe date0 false).state
        johnDoe date0 false).invoked = true ∧
    (generate_message errBackend now1
        (generate_message errBackend now0 emptyGenState johnDoe date0 false).state
        johnDoe date0 false).result ≠
      (generate_message errBackend now0 emptyGenState johnDoe date0 false).result := by
  decide

/-- C3 (amended): provided the key was already cached or the first call's
backend invocation succeeded (no fallback), two `regenerate=False` calls
return identical records, the second call is a pure cache hit (state
unchanged, backend not invoked), and a cached first call does not invoke
the backend either — so the backend runs at most once across the two
calls. -/
theorem repeat_get_or_create_idempotent (backend : Str → Except Str Str)
    (now1' now2' : UtcTime) (st : GenState) (n : Str) (d : PyDate)
    (h : (getKey (message_key n d) st.generated_messages).isSome ∨
         (generate_message backend now1' st n d false).result.fallback = false) :
    generate_message backend now2' (generate_message backend now1' st n d false).state n d false =
      ⟨(generate_message backend now1' st n d false).result,
        (generate_message backend now1' st n d false).state, false⟩ ∧
    ((getKey (message_key n d) st.generated_messages).isSome →
      (generate_message backend now1' st n d false).invoked = false) := by
  cases hg : getKey (message_key n d) st.generated_messages with
  | some m =>
    have h1 := generate_message_cached backend now1' st n d m hg
    rw [h1]
    exact ⟨generate_message_cached backend now2' st n d m hg, fun _ => rfl⟩
  | none =>
    refine ⟨?_, fun hs => absurd hs (by simp)⟩
    cases hb : backend (build_prompt st n d) with
    | ok msg =>
      obtain ⟨hstore, _, _⟩ :=
        generate_message_ok_stores backend now1' st n d false msg (Or.inl hg) hb
      exact generate_message_cached backend now2' _ n d _ hstore
    | error e =>
      have herr := generate_message_error backend now1' st n d false e (Or.inl hg) hb
      rcases h with h | h
      · rw [hg] at h
        exact absurd h (by simp)
      · rw [herr] at h
        exact absurd h (by simp [fallbackRecord])

/-- Witness for C3 (amended): a succeeding first call on the empty store,
replayed by a cache hit. -/
theorem repeat_get_or_create_idempotent_witness :
    ((getKey (message_key johnDoe date0) emptyGenState.generated_messages).isSome ∨
      (generate_message noFactBackend now0 emptyGenState johnDoe date0 false).result.fallback =
        false) ∧
    generate_message noFactBackend now1
        (generate_message noFactBackend now0 emptyGenState johnDoe date0 false).state
        johnDoe date0 false =
      ⟨(generate_message noFactBackend now0 emptyGenState johnDoe date0 false).result,
        (generate_message noFactBackend now0 emptyGenState johnDoe date0 false).state, false⟩ :=
  ⟨Or.inr (by decide),
    (repeat_get_or_create_idempotent noFactBackend now0 now1 emptyGenState johnDoe date0
      (Or.inr (by decide))).1⟩

/-- C1 failing input: a successful generation whose response contains no
"and also" marker (so no fact is extracted) resets the employee's
previously stored fact history to the empty list — the mapping shrinks,
contradicting monotone growth with no deletion path. -/
theorem fact_history_reset_on_factless_generation :
    getKey johnDoe factState.history =
      some ["In 1889 the Eiffel Tower opened".toList] ∧
    (generate_message noFactBackend now0 factState johnDoe date0 false).result.error = none ∧
    getKey johnDoe
      (generate_message noFactBackend now0 factState johnDoe date0 false).state.history =
      some [] := by
  decide

/-- Counterexample to C6 as stated: the message store persists
`generated_at` as the plain `utcnow().isoformat()` string, which has no
trailing "Z". -/
theorem persisted_timestamp_without_z_cex :
    getKey (message_key johnDoe date0)
        (generate_message noFactBackend now0 emptyGenState johnDoe date0 false).state.generated_messages =
      some (generate_message noFactBackend now0 emptyGenState johnDoe date0 false).result ∧
    (generate_message noFactBackend now0 emptyGenState johnDoe date0 false).result.generated_at.getLast? ≠
      some 'Z' := by
  decide

/-- C6 (amended): only the alias store appends a literal "Z" to its
timestamps (`created_at` ends with 'Z'); every timestamp the message store
persists — `generated_at`, `edited_at`, `sent_at`, prompt-history
`created_at` — is the plain `utcnow().isoformat()` string `now.iso`, with
no "Z" appended. -/
theorem timestamp_suffix_split :
    (∀ (now : UtcTime) (st : AliasState) (cn dn notes : Str) (a : Alias) (st2 : AliasState),
      add_alias now st cn dn notes = Except.ok (a, st2) →
        a.created_at.getLast? = some 'Z') ∧
    (∀ (backend : Str → Except Str Str) (now : UtcTime) (st : GenState)
        (n : Str) (d : PyDate) (regen : Bool),
      (generate_message backend now st n d regen).invoked = true →
        (generate_message backend now st n d regen).result.generated_at = now.iso) ∧
    (∀ (now : UtcTime) (st : GenState) (n : Str) (d : PyDate) (text : Str) (m : GenMsg),
      getKey (message_key n d) st.generated_messages = some m →
        getKey (message_key n d) (update_message now st n d text).2.generated_messages =
          some { m with message := text, manually_edited := true, edited_at := some now.iso }) ∧
    (∀ (now : UtcTime) (st : GenState) (n : Str) (d : PyDate) (msg : Str),
      getKey (sent_key n d) (mark_message_sent now st n d msg).sent_messages =
        some { message := msg, sent_at := now, employee_name := n, birthday_date := d.iso }) ∧
    (∀ (now : UtcTime) (st : GenState) (t desc : Str),
      st.prompt_template ≠ t →
        ∃ en, (save_prompt_template now st t desc).prompt_history.getLast? = some en ∧
          en.created_at = now.iso) := by
  refine ⟨?_, ?_, ?_, ?_, ?_⟩
  · intro now st cn dn notes a st2 h
    unfold add_alias at h
    by_cases hex : (getKey cn st.aliases).isSome
    · rw [if_pos hex] at h
      exact absurd h (by simp)
    · rw [if_neg hex] at h
      have ha : a = { display_name := dn
                      ldap_uid := name_to_ldap_uid dn
                      created_at := now.iso ++ ['Z']
                      notes := notes } := by
        cases h
        rfl
      rw [ha]
      simp
  · intro backend now st n d regen hinv
    have hgen : ∀ hl : getKey (message_key n d) st.generated_messages = none ∨ regen = true,
        (generate_message backend now st n d regen).result.generated_at = now.iso := by
      intro hl
      cases hb : backend (build_prompt st n d) with
      | ok msg =>
        obtain ⟨_, _, h3⟩ := generate_message_ok_stores backend now st n d regen msg hl hb
        rw [h3]
      | error e =>
        rw [generate_message_error backend now st n d regen e hl hb]
        rfl
    cases regen with
    | true => exact hgen (Or.inr rfl)
    | false =>
      cases hg : getKey (message_key n d) st.generated_messages with
      | some m =>
        have := generate_message_cached backend now st n d m hg
        rw [this] at hinv
        exact absurd hinv (by simp)
      | none => exact hgen (Or.inl hg)
  · intro now st n d text m h
    simp only [update_message, h]
    exact getKey_setKey_self ..
  · intro now st n d msg
    unfold mark_message_sent
    exact getKey_setKey_self ..
  · intro now st t desc h
    unfold save_prompt_template
    rw [if_pos h]
    refine ⟨{ id := st.prompt_history.length + 1
              template := st.prompt_template
              description := if desc.isEmpty then "Previous version".toList else desc
              created_at := now.iso
              active := false }, ?_, rfl⟩
    simp

/-- Witness for C6 (amended) at concrete inputs: a fresh alias gets a
"Z"-terminated timestamp while a fresh generation, edit, sent record and
prompt save all persist the plain `now.iso`. -/
theorem timestamp_suffix_split_witness :
    (∃ a st2, add_alias now0 (AliasState.mk []) "JDoe".toList johnDoe [] = Except.ok (a, st2) ∧
      a.created_at.getLast? = some 'Z') ∧
    ((generate_message noFactBackend now0 emptyGenState johnDoe date0 false).invoked = true ∧
      (generate_message noFactBackend now0 emptyGenState johnDoe date0 false).result.generated_at =
        now0.iso) ∧
    getKey (sent_key johnDoe date0)
        (mark_message_sent now0 emptyGenState johnDoe date0 "hi".toList).sent_messages =
      some { message := "hi".toList, sent_at := now0, employee_name := johnDoe,
             birthday_date := date0.iso } :=
  ⟨⟨{ display_name := johnDoe
      ldap_uid := name_to_ldap_uid johnDoe
      created_at := now0.iso ++ ['Z']
      notes := [] }, _,
    rfl,
    timestamp_suffix_split.1 now0 (AliasState.mk []) "JDoe".toList johnDoe []
      { display_name := johnDoe
        ldap_uid := name_to_ldap_uid johnDoe
        created_at := now0.iso ++ ['Z']
        notes := [] } _ rfl⟩,
   ⟨by decide,
    timestamp_suffix_split.2.1 noFactBackend now0 emptyGenState johnDoe date0 false (by decide)⟩,
   timestamp_suffix_split.2.2.2.1 now0 emptyGenState johnDoe date0 "hi".toList⟩

/-- Counterexample to C5 as stated: with "JDoe" registered as an alias for
display name "John Doe" (stored uid "john.doe"), the pipeline still emits
the raw name "JDoe" — not `resolve_display_name` — and validates the uid
"jdoe" derived from the raw name — not the stored `resolve_identifier`
"john.doe". -/
theorem pipeline_ignores_alias_resolver_cex :
    (get_birthday_events_for_date (fun _ => true) errBackend now0 date0 none cal0).1.map
        BEvent.name = ["JDoe".toList] ∧
    get_display_name aliasSt0 "JDoe".toList = "John Doe".toList ∧
    ("JDoe".toList : Str) ≠ "John Doe".toList ∧
    queried_uid "JDoe".toList = "jdoe".toList ∧
    get_ldap_uid aliasSt0 "JDoe".toList = "john.doe".toList ∧
    ("jdoe".toList : Str) ≠ "john.doe".toList := by
  decide

/-- C5 (amended): the Event Assembly Pipeline never consults the Identity
Resolver — every emitted event's name is the raw name extracted from the
summary (text before the first hyphen, stripped), and directory validation
is performed on the uid derived from that raw name by replacing spaces with
dots and lowercasing. -/
theorem pipeline_uses_raw_names (dir : Str → Bool)
    (backend : Str → Except Str Str) (now : UtcTime) (target : PyDate)
    (cal : List VEvent) :
    ∀ (gen : Option GenState) (e : BEvent),
      e ∈ (get_birthday_events_for_date dir backend now target gen cal).1 →
      ∃ ev, ev ∈ cal ∧ ev.dtstart = target ∧ containsSub ['-'] ev.summary = true ∧
        e.name = pyStrip (takeUntilSub ['-'] ev.summary) ∧
        e.ldap_valid = dir (queried_uid e.name) := by
  induction cal with
  | nil =>
    intro gen e he
    simp [get_birthday_events_for_date] at he
  | cons ev rest ih =>
    intro gen e he
    unfold get_birthday_events_for_date at he
    rcases assemble_event_shape dir backend now target gen ev with hnone |
      ⟨e₀, hsome, hdt, hhy, hname, hvalid⟩
    · simp only [hnone] at he
      obtain ⟨ev', hmem, h1, h2, h3, h4⟩ := ih _ e he
      exact ⟨ev', List.mem_cons_of_mem _ hmem, h1, h2, h3, h4⟩
    · simp only [hsome] at he
      rcases List.mem_cons.mp he with he | he
      · subst he
        exact ⟨ev, List.mem_cons_self .., hdt, hhy, hname, hvalid⟩
      · obtain ⟨ev', hmem, h1, h2, h3, h4⟩ := ih _ e he
        exact ⟨ev', List.mem_cons_of_mem _ hmem, h1, h2, h3, h4⟩

/-- Witness for C5 (amended) at the one-event calendar `cal0`. -/
theorem pipeline_uses_raw_names_witness :
    jdoeEvent ∈
      (get_birthday_events_for_date (fun _ => true) errBackend now0 date0 none cal0).1 ∧
    ∃ ev, ev ∈ cal0 ∧ ev.dtstart = date0 ∧ containsSub ['-'] ev.summary = true ∧
      jdoeEvent.name = pyStrip (takeUntilSub ['-'] ev.summary) ∧
      jdoeEvent.ldap_valid = (fun _ => true : Str → Bool) (queried_uid jdoeEvent.name) :=
  ⟨by decide,
    pipeline_uses_raw_names (fun _ => true) errBackend now0 date0 cal0 none jdoeEvent
      (by decide)⟩

end BirthdayBot
